import Mathlib

/-
Verification of the geomstats Riemannian-metric core
(src/geomstats/riemannian_metric.py) against its specification.

The embedding models points and tangent vectors as rational vectors
(lists of rationals), so that all concrete runs evaluate exactly; the
floating-point representation of the reference is out of scope, the
arithmetic itself is modelled exactly.  A metric object is a record of
the attributes a concrete variant supplies: the `dimension` attribute
set by the constructor, the three capability methods
(`inner_product_matrix`, `exp`, `log`), and, since Python resolves
`self.squared_distance` dynamically on the concrete class, an optional
`squared_distance` method.  The base class in the repository defines no
method named `squared_distance` (its method is `squared_dist`), so for
every metric built from the capability set of the specification that
field is `none` and the call raises AttributeError, which we model
explicitly.  Fallible derived operations return `Except Err`.
-/

namespace Geomstats

/-- A point or tangent vector: a numeric vector, modelled over ℚ. -/
abbrev Vec := List ℚ

/-- A matrix, as a list of rows. -/
abbrev Mat := List (List ℚ)

/-- Dot product of two vectors, as computed by np.dot on 1-d arrays. -/
def dotL (xs ys : Vec) : ℚ :=
  (List.zipWith (fun a b => a * b) xs ys).sum

/-- Matrix-vector product: np.dot of a 2-d and a 1-d array. -/
def matVec (M : Mat) (v : Vec) : Vec :=
  M.map (fun row => dotL row v)

/-- Elementwise sum of two same-shape arrays (numpy +). -/
def vadd (xs ys : Vec) : Vec :=
  List.zipWith (fun a b => a + b) xs ys

/-- Elementwise difference of two same-shape arrays (numpy -). -/
def vsub (xs ys : Vec) : Vec :=
  List.zipWith (fun a b => a - b) xs ys

/-- Scalar multiple of an array (numpy scalar *). -/
def smul (c : ℚ) (xs : Vec) : Vec :=
  xs.map (fun a => c * a)

/-- Elementwise division of an array by a scalar (numpy /=). -/
def vdiv (xs : Vec) (c : ℚ) : Vec :=
  xs.map (fun a => a / c)

/-- np.zeros_like: an all-zero array of the shape of the argument. -/
def zerosLike (xs : Vec) : Vec :=
  xs.map (fun _ => 0)

/-- The error kinds the module can raise: ValueError (norm and dist on a
negative squared quantity, and the numpy shape-unpacking failure),
AttributeError (a call to a method the object does not have), and
AssertionError (a failed assert statement). -/
inductive Err where
  | valueError (msg : String)
  | attributeError (msg : String)
  | assertionError
deriving DecidableEq, Repr

/-- A metric object: the `dimension` attribute stored by `__init__`
(line 17-18), the three capability methods a concrete variant must
supply (`inner_product_matrix`, `exp`, `log`; the base class bodies
raise NotImplementedError, so a usable metric carries implementations),
and the optional method `squared_distance`, present only if a concrete
variant defines one: the base class of the repository does not (its
method is named `squared_dist`), yet `variance` (line 129) and `mean`
(line 179) call `self.squared_distance`. -/
structure RiemannianMetric where
  dimension : Nat
  inner_product_matrix : Option Vec → Mat
  exp : Vec → Option Vec → Vec
  log : Vec → Option Vec → Vec
  squared_distance : Option (Vec → Vec → ℚ)

/-- Lines 29-37: inner_product(a, b, base_point) =
np.dot(np.dot(a.T, M), b) with M the inner-product matrix; for vectors
this equals the dot product of a with M·b. -/
def inner_product (m : RiemannianMetric) (tangent_vec_a tangent_vec_b : Vec)
    (base_point : Option Vec) : ℚ :=
  dotL tangent_vec_a (matVec (m.inner_product_matrix base_point) tangent_vec_b)

/-- Lines 39-47: squared_norm(v, base_point) = inner_product(v, v, base_point). -/
def squared_norm (m : RiemannianMetric) (vector : Vec) (base_point : Option Vec) : ℚ :=
  inner_product m vector vector base_point

/-- The ValueError message of norm (lines 55-58), without quotation marks. -/
def normMsg : String :=
  "The squared norm of this vector is non-positive. The method norm only works for positive-definite Riemannian metrics and inner products."

/-- Lines 49-60: norm raises ValueError when the squared norm is
negative and otherwise returns its square root. -/
noncomputable def norm (m : RiemannianMetric) (vector : Vec)
    (base_point : Option Vec) : Except Err ℝ :=
  if squared_norm m vector base_point < 0 then
    .error (.valueError normMsg)
  else
    .ok (Real.sqrt (squared_norm m vector base_point))

/-- Lines 78-87: squared_dist(a, b) = squared_norm(log(point=b,
base_point=a), base_point=a). -/
def squared_dist (m : RiemannianMetric) (point_a point_b : Vec) : ℚ :=
  squared_norm m (m.log point_b (some point_a)) (some point_a)

/-- The ValueError message of dist (lines 96-100), without quotation marks. -/
def distMsg : String :=
  "The squared distance between these points is non-positive. The method dist only works for positive-definite Riemannian metrics and inner products."

/-- Lines 89-102: dist raises ValueError when the squared distance is
negative and otherwise returns its square root. -/
noncomputable def dist (m : RiemannianMetric) (point_a point_b : Vec) : Except Err ℝ :=
  if squared_dist m point_a point_b < 0 then
    .error (.valueError distMsg)
  else
    .ok (Real.sqrt (squared_dist m point_a point_b))

/-- The AttributeError message raised by a call of the undefined method
squared_distance, without quotation marks. -/
def sqDistAttrMsg : String :=
  "RiemannianMetric object has no attribute squared_distance"

/-- The behaviour of the call self.squared_distance(a, b) (lines 129 and
179): Python looks the name up on the object; the base class defines no
such method (its method is squared_dist), so unless the concrete variant
supplies one the call raises AttributeError. -/
def squared_distance_call (m : RiemannianMetric) (point_a point_b : Vec) :
    Except Err ℚ :=
  match m.squared_distance with
  | none => .error (.attributeError sqDistAttrMsg)
  | some f => .ok (f point_a point_b)

/-- The points argument of variance is a numpy array; it may be
1-dimensional (a flat sequence) or 2-dimensional (rows = points). -/
inductive PyArray where
  | mk1 (xs : List ℚ)
  | mk2 (rows : List Vec)
deriving DecidableEq, Repr

/-- The numpy message of a failed unpacking of a 1-d shape into two
variables, without the parenthesised counts. -/
def unpackMsg : String :=
  "not enough values to unpack"

/-- Lines 125-131: the accumulation loop of variance, over the
weight-row pairs in index order; each step calls the undefined
self.squared_distance. -/
def varLoop (m : RiemannianMetric) (base_point : Vec) :
    List (ℚ × Vec) → ℚ → Except Err ℚ
  | [], acc => .ok acc
  | (weight_i, point_i) :: rest, acc =>
    match squared_distance_call m base_point point_i with
    | .error e => .error e
    | .ok sq_dist => varLoop m base_point rest (acc + weight_i * sq_dist)

/-- Lines 113-133: variance(base_point, points, weights).  The first
statement, n_points, _ = points.shape, raises ValueError on a
1-dimensional array; then the two asserts (n_points > 0 and n_points ==
len(weights)) run before the loop; the loop accumulates
weights[i] * self.squared_distance(base_point, points[i]). -/
def variance (m : RiemannianMetric) (base_point : Vec) (points : PyArray)
    (weights : List ℚ) : Except Err ℚ :=
  match points with
  | .mk1 _ => .error (.valueError unpackMsg)
  | .mk2 rows =>
    if ¬ 0 < rows.length then .error .assertionError
    else if ¬ rows.length = weights.length then .error .assertionError
    else varLoop m base_point (weights.zip rows) 0

/-- Line 8: EPSILON = 1e-5, the default tolerance of mean. -/
def EPSILON : ℚ := 1 / 100000

/-- Lines 188-190: the text passed to logging.warning when the
iteration count reaches n_max_iterations; the two string literals of the
source concatenate with no space between reached. and The. -/
def maxIterWarning (n_max_iterations : Nat) : String :=
  "Maximum number of iterations " ++ toString n_max_iterations ++ " reached.The mean may be inaccurate"

/-- Lines 166-182: the body of one iteration of the mean loop: the
zero tangent vector shaped by log(mean, mean); the weighted accumulation
of log(points[i], mean); division by sum_weights; mean_next =
exp(tangent_mean, mean); then sq_dist = self.squared_distance(mean_next,
mean) (a call of the undefined method) and variance(mean_next, points,
weights).  Returns (mean_next, sq_dist, variance). -/
def meanIterBody (m : RiemannianMetric) (points : List Vec) (weights : List ℚ)
    (sum_weights : ℚ) (meanv : Vec) : Except Err (Vec × ℚ × ℚ) :=
  let a_tangent_vector := m.log meanv (some meanv)
  let tangent_mean :=
    (weights.zip points).foldl
      (fun acc wp => vadd acc (smul wp.1 (m.log wp.2 (some meanv))))
      (zerosLike a_tangent_vector)
  let tangent_mean := vdiv tangent_mean sum_weights
  let mean_next := m.exp tangent_mean (some meanv)
  match squared_distance_call m mean_next meanv with
  | .error e => .error e
  | .ok sq_dist =>
    match variance m mean_next (.mk2 points) weights with
    | .error e => .error e
    | .ok var => .ok (mean_next, sq_dist, var)

/-- Lines 164-191: the while True loop of mean, indexed by fuel; `none`
means the loop is still running after that many iterations.  The
variable mean (here meanv) is never reassigned; the break fires when
sq_dist < epsilon * variance; when it == n_max_iterations the loop only
appends the warning and keeps running (the source has no break there);
on break the function returns the unchanged mean together with the
warnings emitted so far. -/
def meanLoop (m : RiemannianMetric) (points : List Vec) (weights : List ℚ)
    (sum_weights epsilon : ℚ) (n_max_iterations : Nat) (meanv : Vec) :
    Nat → Nat → List String → Option (Except Err (Vec × List String))
  | 0, _, _ => none
  | fuel + 1, it, warns =>
    match meanIterBody m points weights sum_weights meanv with
    | .error e => some (.error e)
    | .ok (_, sq_dist, var) =>
      if sq_dist < epsilon * var then some (.ok (meanv, warns))
      else
        meanLoop m points weights sum_weights epsilon n_max_iterations meanv
          fuel (it + 1)
          (if it + 1 = n_max_iterations then warns ++ [maxIterWarning n_max_iterations]
           else warns)

/-- Lines 135-192: mean(points, weights=None, n_max_iterations=100,
epsilon=EPSILON).  Asserts n_points > 0; defaults weights to all ones;
asserts the length match; sets mean := points[0]; returns it at once if
there is a single point; otherwise enters the loop.  The result pairs
the returned array with the warnings emitted. -/
def mean (m : RiemannianMetric) (points : List Vec) (weights : Option (List ℚ))
    (n_max_iterations : Nat) (epsilon : ℚ) (fuel : Nat) :
    Option (Except Err (Vec × List String)) :=
  if ¬ 0 < points.length then some (.error .assertionError)
  else
    let ws := weights.getD (List.replicate points.length (1 : ℚ))
    if ¬ points.length = ws.length then some (.error .assertionError)
    else
      let meanv := points.getD 0 []
      if points.length = 1 then some (.ok (meanv, []))
      else meanLoop m points ws ws.sum epsilon n_max_iterations meanv fuel 0 []

/-- The Euclidean metric in two dimensions of the specification:
identity inner-product matrix, exp(v, p) = p + v, log(q, p) = q - p.  It
is built from the capability set only, so it has no squared_distance
method. -/
def euclid2 : RiemannianMetric :=
  { dimension := 2
    inner_product_matrix := fun _ => [[1, 0], [0, 1]]
    exp := fun v p => vadd (p.getD []) v
    log := fun q p => vsub q (p.getD [])
    squared_distance := none }

/-- The Euclidean metric in two dimensions extended with a
squared_distance method equal to its Euclidean squared distance, the
reading under which the loop bodies of variance and mean execute. -/
def euclid2sqd : RiemannianMetric :=
  { euclid2 with squared_distance := some (fun a b => dotL (vsub b a) (vsub b a)) }

/-- A one-dimensional Euclidean metric with a squared_distance method. -/
def euclid1sqd : RiemannianMetric :=
  { dimension := 1
    inner_product_matrix := fun _ => [[1]]
    exp := fun v p => vadd (p.getD []) v
    log := fun q p => vsub q (p.getD [])
    squared_distance := some (fun a b => dotL (vsub b a) (vsub b a)) }

/-- A two-dimensional Minkowski metric: an indefinite inner product with
matrix diag(-1, 1). -/
def mink2 : RiemannianMetric :=
  { dimension := 2
    inner_product_matrix := fun _ => [[-1, 0], [0, 1]]
    exp := fun v p => vadd (p.getD []) v
    log := fun q p => vsub q (p.getD [])
    squared_distance := none }

/-- C6: for every pair of points a, b, squared_dist(a, b) equals
squared_norm(log(b, a), a): the logarithm is computed at base point a
toward b and the squared norm is taken at base point a, exactly the
asymmetric base-point choice of the source. -/
theorem squared_dist_eq_squared_norm_log (m : RiemannianMetric) (point_a point_b : Vec) :
    squared_dist m point_a point_b
      = squared_norm m (m.log point_b (some point_a)) (some point_a) := rfl

/-- C1: the claim says variance returns the weighted sum of
weights[i] * squared_dist(base_point, points[i]); the code instead calls
self.squared_distance, a method the class does not define (its method is
squared_dist), so on a metric supplying only the capability set the call
raises AttributeError even on valid input.  Second conjunct: under the
reading in which squared_distance resolves to the Euclidean squared
distance, variance does return the weighted sum (3 * 1 + 5 * 4 = 23). -/
theorem variance_squared_distance_typo :
    variance euclid2 [0, 0] (.mk2 [[1, 0]]) [1]
        = .error (.attributeError sqDistAttrMsg) ∧
    variance euclid2sqd [0, 0] (.mk2 [[1, 0], [0, 2]]) [3, 5] = .ok 23 := by
  constructor
  · norm_num [variance, varLoop, squared_distance_call, euclid2]
  · norm_num [variance, varLoop, squared_distance_call, euclid2sqd, euclid2,
      dotL, vsub]

/-- C7, counterexample: with a single point but weights of length two,
mean does not return the point: the length assertion (line 155) runs
before the single-point return (lines 158-160), so the call fails with
AssertionError. -/
theorem mean_single_point_any_weights_cex :
    mean euclid2 [[5, 5]] (some [1, 1]) 100 EPSILON 10
      ≠ some (.ok ([5, 5], [])) := by
  norm_num [mean]
  exact fun h => nomatch h

/-- C7, amended: for a single-element points collection [p] and any
weights sequence of length one (or weights omitted), mean returns
exactly p immediately, with no iteration and no weight applied even when
the weight is not 1. -/
theorem mean_single_point_returns_it (m : RiemannianMetric) (p : Vec) (w : ℚ)
    (n_max_iterations : Nat) (epsilon : ℚ) (fuel : Nat) :
    mean m [p] (some [w]) n_max_iterations epsilon fuel = some (.ok (p, [])) ∧
    mean m [p] none n_max_iterations epsilon fuel = some (.ok (p, [])) := by
  constructor <;> simp [mean]

/-- C10: variance accepts points only as a two-dimensional array: on a
flat one-dimensional array the unpacking n_points, _ = points.shape
fails with ValueError before any other computation, for every metric and
every weights argument; mean makes no such shape demand: it only takes
len(points) and indexes into the sequence, and on a plain one-element
list of points it returns successfully. -/
theorem variance_requires_2d_mean_does_not :
    (∀ (m : RiemannianMetric) (base_point : Vec) (xs weights : List ℚ),
        variance m base_point (.mk1 xs) weights
          = .error (.valueError unpackMsg)) ∧
    (∀ (m : RiemannianMetric) (p : Vec) (n_max_iterations : Nat) (epsilon : ℚ)
        (fuel : Nat),
        mean m [p] none n_max_iterations epsilon fuel = some (.ok (p, []))) := by
  constructor
  · intro m base_point xs weights
    rfl
  · intro m p n_max_iterations epsilon fuel
    simp [mean]

/-- Any exit of the mean loop with a value returns the loop variable
mean unchanged: the source never reassigns it inside the loop. -/
theorem meanLoop_ok_returns_meanv (m : RiemannianMetric) (points : List Vec)
    (weights : List ℚ) (sum_weights epsilon : ℚ) (n_max_iterations : Nat)
    (meanv : Vec) :
    ∀ (fuel it : Nat) (warns : List String) (v : Vec) (w : List String),
      meanLoop m points weights sum_weights epsilon n_max_iterations meanv
          fuel it warns = some (.ok (v, w)) →
        v = meanv := by
  intro fuel
  induction fuel with
  | zero =>
    intro it warns v w h
    exact nomatch h
  | succ n ih =>
    intro it warns v w h
    rw [meanLoop] at h
    cases hb : meanIterBody m points weights sum_weights meanv with
    | error e =>
      rw [hb] at h
      exact nomatch h
    | ok trip =>
      rw [hb] at h
      obtain ⟨mean_next, sq_dist, var⟩ := trip
      dsimp only at h
      by_cases hc : sq_dist < epsilon * var
      · rw [if_pos hc] at h
        simp only [Option.some.injEq, Except.ok.injEq, Prod.mk.injEq] at h
        exact h.1.symm
      · rw [if_neg hc] at h
        exact ih _ _ v w h

/-- C3: every call of mean with at least two points that exits its loop
with a value returns the initial point points[0]: the variable mean is
never reassigned inside the loop, however many iterations ran. -/
theorem mean_exit_returns_initial_point (m : RiemannianMetric)
    (points : List Vec) (weights : Option (List ℚ)) (n_max_iterations : Nat)
    (epsilon : ℚ) (fuel : Nat) (v : Vec) (w : List String)
    (h2 : 2 ≤ points.length)
    (h : mean m points weights n_max_iterations epsilon fuel
          = some (.ok (v, w))) :
    v = points.getD 0 [] := by
  simp only [mean] at h
  split at h
  · exact nomatch h
  · split at h
    · exact nomatch h
    · split at h
      next h1 => omega
      next h1 =>
        exact meanLoop_ok_returns_meanv m points _ _ epsilon n_max_iterations
          (points.getD 0 []) fuel 0 [] v w h

/-- Witness for C3: the one-dimensional Euclidean metric with a
squared_distance method, on points [[0], [1], [-1]], breaks out of the
loop on its first iteration (sq_dist = 0 < EPSILON * variance = 2 /
100000) and returns [0], the initial point. -/
theorem mean_exit_returns_initial_point_witness :
    ([0] : Vec) = ([[0], [1], [-1]] : List Vec).getD 0 [] :=
  mean_exit_returns_initial_point euclid1sqd [[0], [1], [-1]] none 100 EPSILON 1
    [0] [] (by norm_num)
    (by norm_num [mean, meanLoop, meanIterBody, variance, varLoop,
      squared_distance_call, euclid1sqd, dotL, vsub, vadd, smul, vdiv,
      zerosLike, EPSILON, List.zip, List.zipWith, List.foldl, List.map,
      List.replicate, List.sum_cons, List.sum_nil])

/-- C2: the claim says the mean loop terminates, returning on
convergence or after exactly max_iterations with a warning.  First
conjunct: on the capability-only Euclidean metric the first iteration
raises AttributeError at the self.squared_distance call (line 179), so
no convergence test is ever evaluated.  Second conjunct: under the
reading in which squared_distance resolves to the Euclidean squared
distance, with n_max_iterations = 3 the loop is still running after 10
iterations (the source logs the warning at the cap but has no break
there, and mean is never reassigned, so sq_dist stays at 13/9 while
EPSILON * variance stays at 14/300000). -/
theorem mean_loop_no_termination_at_cap :
    mean euclid2 [[0, 0], [2, 0]] none 100 EPSILON 7
        = some (.error (.attributeError sqDistAttrMsg)) ∧
    mean euclid2sqd [[0, 0], [2, 0], [1, 2]] none 3 EPSILON 10 = none := by
  constructor
  · norm_num [mean, meanLoop, meanIterBody, squared_distance_call, euclid2,
      dotL, vsub, vadd, smul, vdiv, zerosLike, List.zip, List.zipWith,
      List.foldl, List.map, List.replicate, List.sum_cons, List.sum_nil]
  · norm_num [mean, meanLoop, meanIterBody, variance, varLoop,
      squared_distance_call, euclid2sqd, euclid2, dotL, vsub, vadd, smul,
      vdiv, zerosLike, EPSILON, maxIterWarning, List.zip, List.zipWith,
      List.foldl, List.map, List.replicate, List.sum_cons, List.sum_nil]

/-- C4: the claim says that on the Euclidean plane metric with points
[[0,0], [2,0], [1,2]] and uniform weights, mean returns the centroid
[1, 2/3] converging in one iteration.  First conjunct: on the
specified Euclidean metric (capability set only, the identity matrix,
exp(v,p) = p+v, log(q,p) = q-p) the call instead raises AttributeError
in its first iteration at the self.squared_distance call.  Second
conjunct: even with squared_distance resolved to the Euclidean squared
distance the loop has not returned after two iterations (mean is never
reassigned, so the convergence test compares the constant sq_dist 13/9
with 14/300000), hence no single-iteration convergence and no centroid
is ever returned. -/
theorem mean_euclidean_centroid_scenario_fails :
    mean euclid2 [[0, 0], [2, 0], [1, 2]] (some [1, 1, 1]) 100 EPSILON 5
        = some (.error (.attributeError sqDistAttrMsg)) ∧
    mean euclid2sqd [[0, 0], [2, 0], [1, 2]] (some [1, 1, 1]) 100 EPSILON 2
        = none := by
  constructor
  · norm_num [mean, meanLoop, meanIterBody, squared_distance_call, euclid2,
      dotL, vsub, vadd, smul, vdiv, zerosLike, List.zip, List.zipWith,
      List.foldl, List.map, List.replicate, List.sum_cons, List.sum_nil]
  · norm_num [mean, meanLoop, meanIterBody, variance, varLoop,
      squared_distance_call, euclid2sqd, euclid2, dotL, vsub, vadd, smul,
      vdiv, zerosLike, EPSILON, maxIterWarning, List.zip, List.zipWith,
      List.foldl, List.map, List.replicate, List.sum_cons, List.sum_nil]

/-- The common shape of norm and dist: the guarded square root of a
squared quantity fails exactly on negative input and otherwise returns
the non-negative square root. -/
theorem sqrtGuardSpec (q : ℚ) (emsg : String) (f : Except Err ℝ)
    (hf : f = if q < 0 then .error (.valueError emsg) else .ok (Real.sqrt q)) :
    (f = .error (.valueError emsg) ↔ q < 0) ∧
    (0 ≤ q →
      f = .ok (Real.sqrt q) ∧ (0 : ℝ) ≤ Real.sqrt q ∧
        (Real.sqrt q) ^ 2 = (q : ℝ)) := by
  subst hf
  constructor
  · constructor
    · intro h
      by_contra hq
      rw [if_neg hq] at h
      exact nomatch h
    · intro h
      rw [if_pos h]
  · intro h
    rw [if_neg (not_lt.mpr h)]
    exact ⟨rfl, Real.sqrt_nonneg _, Real.sq_sqrt (by exact_mod_cast h)⟩

/-- C5: norm(v, base_point) fails with the ValueError of lines 55-58
exactly when squared_norm(v, base_point) < 0, and otherwise returns the
square root of the squared norm, which is non-negative and squares back
to the squared norm; dist(a, b) fails with the ValueError of lines
96-100 exactly when squared_dist(a, b) < 0, and otherwise returns the
non-negative square root of the squared distance. -/
theorem norm_dist_domain_error_spec (m : RiemannianMetric) (vector : Vec)
    (base_point : Option Vec) (point_a point_b : Vec) :
    (norm m vector base_point = .error (.valueError normMsg)
        ↔ squared_norm m vector base_point < 0) ∧
    (0 ≤ squared_norm m vector base_point →
      norm m vector base_point
          = .ok (Real.sqrt (squared_norm m vector base_point)) ∧
        (0 : ℝ) ≤ Real.sqrt (squared_norm m vector base_point) ∧
        (Real.sqrt (squared_norm m vector base_point)) ^ 2
          = ((squared_norm m vector base_point : ℚ) : ℝ)) ∧
    (dist m point_a point_b = .error (.valueError distMsg)
        ↔ squared_dist m point_a point_b < 0) ∧
    (0 ≤ squared_dist m point_a point_b →
      dist m point_a point_b
          = .ok (Real.sqrt (squared_dist m point_a point_b)) ∧
        (0 : ℝ) ≤ Real.sqrt (squared_dist m point_a point_b) ∧
        (Real.sqrt (squared_dist m point_a point_b)) ^ 2
          = ((squared_dist m point_a point_b : ℚ) : ℝ)) := by
  have h1 := sqrtGuardSpec (squared_norm m vector base_point) normMsg
    (norm m vector base_point) rfl
  have h2 := sqrtGuardSpec (squared_dist m point_a point_b) distMsg
    (dist m point_a point_b) rfl
  exact ⟨h1.1, h1.2, h2.1, h2.2⟩

/-- Witness for C5: on the indefinite Minkowski metric the vector [1, 0]
has squared norm -1 and norm raises the ValueError; on the Euclidean
metric the vector [3, 4] has squared norm 25 and norm returns its square
root, and the points [0, 0] and [3, 4] have squared distance 25 and dist
returns its square root. -/
theorem norm_dist_domain_error_spec_witness :
    norm mink2 [1, 0] none = .error (.valueError normMsg) ∧
    norm euclid2 [3, 4] none = .ok (Real.sqrt ((25 : ℚ) : ℝ)) ∧
    dist euclid2 [0, 0] [3, 4] = .ok (Real.sqrt ((25 : ℚ) : ℝ)) := by
  have hm := norm_dist_domain_error_spec mink2 [1, 0] none [] []
  have he := norm_dist_domain_error_spec euclid2 [3, 4] none [0, 0] [3, 4]
  have hsqn : squared_norm euclid2 [3, 4] none = 25 := by
    norm_num [squared_norm, inner_product, dotL, matVec, euclid2]
  have hsqd : squared_dist euclid2 [0, 0] [3, 4] = 25 := by
    norm_num [squared_dist, squared_norm, inner_product, dotL, matVec, vsub,
      euclid2]
  refine ⟨?_, ?_, ?_⟩
  · exact hm.1.mpr (by norm_num [squared_norm, inner_product, dotL, matVec,
      mink2])
  · have h := (he.2.1 (by rw [hsqn]; norm_num)).1
    rw [hsqn] at h
    exact h
  · have h := (he.2.2.2 (by rw [hsqd]; norm_num)).1
    rw [hsqd] at h
    exact h

/-- C8: calls of variance and mean whose inputs violate the length
preconditions fail with the AssertionError of the eager asserts, for
every metric alike (so before any capability is invoked and before any
loop runs): variance on a 2-d array with no rows or with a
weights-length mismatch, mean with an empty points sequence, and mean
with a weights sequence of mismatched length. -/
theorem precondition_violations_fail_eagerly :
    (∀ (m : RiemannianMetric) (base_point : Vec) (rows : List Vec)
        (weights : List ℚ),
        rows.length = 0 ∨ rows.length ≠ weights.length →
        variance m base_point (.mk2 rows) weights = .error .assertionError) ∧
    (∀ (m : RiemannianMetric) (points : List Vec) (weights : Option (List ℚ))
        (n_max_iterations : Nat) (epsilon : ℚ) (fuel : Nat),
        points.length = 0 →
        mean m points weights n_max_iterations epsilon fuel
          = some (.error .assertionError)) ∧
    (∀ (m : RiemannianMetric) (points : List Vec) (weights : List ℚ)
        (n_max_iterations : Nat) (epsilon : ℚ) (fuel : Nat),
        points.length ≠ weights.length →
        mean m points (some weights) n_max_iterations epsilon fuel
          = some (.error .assertionError)) := by
  refine ⟨?_, ?_, ?_⟩
  · intro m base_point rows weights h
    by_cases h0 : 0 < rows.length
    · have hne : rows.length ≠ weights.length := by
        rcases h with h | h
        · omega
        · exact h
      simp [variance, h0, hne]
    · simp [variance, h0]
  · intro m points weights n_max_iterations epsilon fuel h
    simp [mean, h]
  · intro m points weights n_max_iterations epsilon fuel h
    by_cases h0 : 0 < points.length
    · simp [mean, h0, h]
    · simp [mean, h0]

/-- Witness for C8: variance on an empty 2-d array, mean on an empty
points list, mean on one point with two weights. -/
theorem precondition_violations_fail_eagerly_witness :
    variance euclid2 [0, 0] (.mk2 []) [1] = .error .assertionError ∧
    mean euclid2 [] none 100 EPSILON 3 = some (.error .assertionError) ∧
    mean euclid2 [[1, 2]] (some [1, 1]) 100 EPSILON 3
      = some (.error .assertionError) :=
  ⟨precondition_violations_fail_eagerly.1 euclid2 [0, 0] [] [1] (Or.inl rfl),
   precondition_violations_fail_eagerly.2.1 euclid2 [] none 100 EPSILON 3 rfl,
   precondition_violations_fail_eagerly.2.2 euclid2 [[1, 2]] [1, 1] 100 EPSILON
     3 (by decide)⟩

/-- The variance loop never reads the dimension attribute. -/
theorem varLoop_ignores_dimension (d1 d2 : Nat) (ipm : Option Vec → Mat)
    (e l : Vec → Option Vec → Vec) (s : Option (Vec → Vec → ℚ))
    (base_point : Vec) :
    ∀ (lst : List (ℚ × Vec)) (acc : ℚ),
      varLoop ⟨d1, ipm, e, l, s⟩ base_point lst acc
        = varLoop ⟨d2, ipm, e, l, s⟩ base_point lst acc := by
  intro lst
  induction lst with
  | nil => intro acc; rfl
  | cons hd tl ih =>
    intro acc
    obtain ⟨w, p⟩ := hd
    simp only [varLoop, squared_distance_call]
    cases s with
    | none => rfl
    | some f => exact ih _

/-- variance never reads the dimension attribute. -/
theorem variance_ignores_dimension (d1 d2 : Nat) (ipm : Option Vec → Mat)
    (e l : Vec → Option Vec → Vec) (s : Option (Vec → Vec → ℚ))
    (base_point : Vec) (points : PyArray) (weights : List ℚ) :
    variance ⟨d1, ipm, e, l, s⟩ base_point points weights
      = variance ⟨d2, ipm, e, l, s⟩ base_point points weights := by
  cases points with
  | mk1 xs => rfl
  | mk2 rows =>
    simp only [variance]
    by_cases h0 : ¬ 0 < rows.length
    · rw [if_pos h0, if_pos h0]
    · rw [if_neg h0, if_neg h0]
      by_cases h1 : ¬ rows.length = weights.length
      · rw [if_pos h1, if_pos h1]
      · rw [if_neg h1, if_neg h1]
        exact varLoop_ignores_dimension d1 d2 ipm e l s base_point _ 0

/-- The mean iteration body never reads the dimension attribute. -/
theorem meanIterBody_ignores_dimension (d1 d2 : Nat) (ipm : Option Vec → Mat)
    (e l : Vec → Option Vec → Vec) (s : Option (Vec → Vec → ℚ))
    (points : List Vec) (weights : List ℚ) (sum_weights : ℚ) (meanv : Vec) :
    meanIterBody ⟨d1, ipm, e, l, s⟩ points weights sum_weights meanv
      = meanIterBody ⟨d2, ipm, e, l, s⟩ points weights sum_weights meanv := by
  simp only [meanIterBody, squared_distance_call]
  cases s with
  | none => rfl
  | some f =>
    rw [variance_ignores_dimension d1 d2 ipm e l (some f)]

/-- The mean loop never reads the dimension attribute. -/
theorem meanLoop_ignores_dimension (d1 d2 : Nat) (ipm : Option Vec → Mat)
    (e l : Vec → Option Vec → Vec) (s : Option (Vec → Vec → ℚ))
    (points : List Vec) (weights : List ℚ) (sum_weights epsilon : ℚ)
    (n_max_iterations : Nat) (meanv : Vec) :
    ∀ (fuel it : Nat) (warns : List String),
      meanLoop ⟨d1, ipm, e, l, s⟩ points weights sum_weights epsilon
          n_max_iterations meanv fuel it warns
        = meanLoop ⟨d2, ipm, e, l, s⟩ points weights sum_weights epsilon
          n_max_iterations meanv fuel it warns := by
  intro fuel
  induction fuel with
  | zero => intro it warns; rfl
  | succ n ih =>
    intro it warns
    rw [meanLoop, meanLoop,
      meanIterBody_ignores_dimension d1 d2 ipm e l s points weights
        sum_weights meanv]
    cases meanIterBody ⟨d2, ipm, e, l, s⟩ points weights sum_weights meanv with
    | error e0 => rfl
    | ok trip =>
      obtain ⟨mean_next, sq_dist, var⟩ := trip
      dsimp only
      by_cases hc : sq_dist < epsilon * var
      · rw [if_pos hc, if_pos hc]
      · rw [if_neg hc, if_neg hc]
        exact ih _ _

/-- C9: every derived operation is a pure function of its explicit
arguments and the methods the metric supplies: the embedding is pure
because the source assigns no attribute outside the constructor, and
this theorem checks the one record field that is not a method, the
dimension set at construction: two metrics with the same method suite
and different dimension attributes agree on inner_product, squared_norm,
norm, squared_dist, dist, variance and mean at every input, so no
operation reads or changes the dimension, and none returns a modified
metric. -/
theorem derived_ops_ignore_dimension (d1 d2 : Nat) (ipm : Option Vec → Mat)
    (e l : Vec → Option Vec → Vec) (s : Option (Vec → Vec → ℚ)) :
    (∀ (a b : Vec) (p : Option Vec),
        inner_product ⟨d1, ipm, e, l, s⟩ a b p
          = inner_product ⟨d2, ipm, e, l, s⟩ a b p) ∧
    (∀ (v : Vec) (p : Option Vec),
        squared_norm ⟨d1, ipm, e, l, s⟩ v p
          = squared_norm ⟨d2, ipm, e, l, s⟩ v p) ∧
    (∀ (v : Vec) (p : Option Vec),
        norm ⟨d1, ipm, e, l, s⟩ v p = norm ⟨d2, ipm, e, l, s⟩ v p) ∧
    (∀ (a b : Vec),
        squared_dist ⟨d1, ipm, e, l, s⟩ a b
          = squared_dist ⟨d2, ipm, e, l, s⟩ a b) ∧
    (∀ (a b : Vec),
        dist ⟨d1, ipm, e, l, s⟩ a b = dist ⟨d2, ipm, e, l, s⟩ a b) ∧
    (∀ (bp : Vec) (pts : PyArray) (ws : List ℚ),
        variance ⟨d1, ipm, e, l, s⟩ bp pts ws
          = variance ⟨d2, ipm, e, l, s⟩ bp pts ws) ∧
    (∀ (pts : List Vec) (ws : Option (List ℚ)) (n_max_iterations : Nat)
        (epsilon : ℚ) (fuel : Nat),
        mean ⟨d1, ipm, e, l, s⟩ pts ws n_max_iterations epsilon fuel
          = mean ⟨d2, ipm, e, l, s⟩ pts ws n_max_iterations epsilon fuel) := by
  refine ⟨fun a b p => rfl, fun v p => rfl, fun v p => rfl, fun a b => rfl,
    fun a b => rfl, fun bp pts ws => variance_ignores_dimension d1 d2 ipm e l s
      bp pts ws, ?_⟩
  intro pts ws n_max_iterations epsilon fuel
  simp only [mean]
  by_cases h0 : ¬ 0 < pts.length
  · rw [if_pos h0, if_pos h0]
  · rw [if_neg h0, if_neg h0]
    by_cases h1 : ¬ pts.length = (ws.getD (List.replicate pts.length 1)).length
    · rw [if_pos h1, if_pos h1]
    · rw [if_neg h1, if_neg h1]
      by_cases h2 : pts.length = 1
      · rw [if_pos h2, if_pos h2]
      · rw [if_neg h2, if_neg h2]
        exact meanLoop_ignores_dimension d1 d2 ipm e l s pts _ _ epsilon
          n_max_iterations _ fuel 0 []

end Geomstats
